import Mathlib

/-
Verification of the minnow utility layer: the FileDescriptor / FDWrapper
resource-guard pair (src/minnow/util/file_descriptor.hh) and the debug sink
(src/minnow/util/debug.hh, src/minnow/util/debug.cc).

The header file_descriptor.hh carries the data model (FDWrapper fields,
the shared_ptr cell, the inline accessors, register_read / register_write /
set_eof and the close() delegation); the bodies of FDWrapper::close,
CheckSystemCall, read, write, duplicate and set_blocking live in
file_descriptor.cc, which is not part of the sources here, so those bodies
are modelled from the specification (each such definition says so in its
doc comment).

Kernel interaction is embedded explicitly: every operation returns, besides
its result and the updated heap, the list of kernel syscalls it issued, and
takes the kernel's return value and errno for the (at most one) syscall it
may issue as parameters.
-/

namespace Minnow

/-- Platform error codes (errno values). -/
abbrev ErrCode := Int

/-- The typed error raised by every syscall-checking primitive: the failing
operation's name plus the platform error code. -/
structure SystemCallError where
  operation : String
  code : ErrCode
deriving DecidableEq

/-- Kernel syscalls the embedded operations can issue, recorded as an event
trace so that claims about which syscalls are (or are not) issued are
statable. -/
inductive Syscall where
  | sys_close (fd : Int)
  | sys_read (fd : Int) (cap : Nat)
  | sys_write (fd : Int) (len : Nat)
  | sys_fcntl (fd : Int)
deriving DecidableEq

/-- Width of the C++ `unsigned` counters of file_descriptor.hh
(32 bits on the target platform). -/
def unsignedWidth : Nat := 2 ^ 32

/-- FileDescriptor::FDWrapper (file_descriptor.hh lines 15-42): the shared
state owning one kernel descriptor: the fd number, the eof / closed /
non-blocking flags, and the read / write operation counters (C++ `unsigned`,
hence arithmetic modulo 2^32). -/
structure FDWrapper where
  fd_ : Int
  eof_ : Bool := false
  closed_ : Bool := false
  non_blocking_ : Bool := false
  read_count_ : Nat := 0
  write_count_ : Nat := 0
deriving DecidableEq

/-- register_read (file_descriptor.hh line 57): `++read_count_` on a C++
unsigned, so the counter wraps modulo 2^32. -/
def FDWrapper.register_read (w : FDWrapper) : FDWrapper :=
  { w with read_count_ := (w.read_count_ + 1) % unsignedWidth }

/-- register_write (file_descriptor.hh line 59): `++write_count_` on a C++
unsigned, so the counter wraps modulo 2^32. -/
def FDWrapper.register_write (w : FDWrapper) : FDWrapper :=
  { w with write_count_ := (w.write_count_ + 1) % unsignedWidth }

/-- set_eof (file_descriptor.hh line 55): `eof_ = true` on the shared cell. -/
def FDWrapper.set_eof (w : FDWrapper) : FDWrapper :=
  { w with eof_ := true }

/-- Modelled from the spec: the body of FDWrapper::CheckSystemCall /
FileDescriptor::CheckSystemCall lives in file_descriptor.cc, which is absent
from the sources (the header, lines 33-35 and 61-63, only declares it).
Spec section 4.1: if the return value denotes the platform's failure sentinel
(-1 for the integral instantiations used here), raise
SystemCallError{operation, last_error}; otherwise return the value unchanged.
The platform's `last_error` (errno) at the time of the call is passed
explicitly. -/
def CheckSystemCall (s_attempt : String) (return_value : Int) (last_error : ErrCode) :
    Except SystemCallError Int :=
  if return_value = -1 then Except.error ⟨s_attempt, last_error⟩ else Except.ok return_value

/-- Modelled from the spec: the body of FDWrapper::close lives in
file_descriptor.cc, which is absent from the sources (header line 31 only
declares it). Spec section 4.1: if not already closed, issue the kernel close
syscall (checked through CheckSystemCall); on success mark `closed = true`;
on failure raise SystemCallError{"close", code} but still consider the
resource released, so that repeated close() is a no-op once `closed` is true
and the raw number is never reused for a second close attempt. `ret` and
`errno` are the kernel's return value and error code for the close syscall,
should one be issued. -/
def FDWrapper.close (w : FDWrapper) (ret : Int) (errno : ErrCode) :
    Except SystemCallError Unit × FDWrapper × List Syscall :=
  if w.closed_ then
    (Except.ok (), w, [])
  else
    match CheckSystemCall "close" ret errno with
    | Except.ok _ => (Except.ok (), { w with closed_ := true }, [Syscall.sys_close w.fd_])
    | Except.error e => (Except.error e, { w with closed_ := true }, [Syscall.sys_close w.fd_])

/-- The heap of shared FDWrapper cells: models the std::shared_ptr<FDWrapper>
cells (file_descriptor.hh line 45) together with their use counts. `cell i`
is the wrapper state stored in cell `i` and `refs i` its reference count. -/
structure Heap where
  next : Nat
  cell : Nat → FDWrapper
  refs : Nat → Nat

/-- The heap with no allocated cells. -/
def Heap.empty : Heap :=
  { next := 0, cell := fun _ => { fd_ := -1 }, refs := fun _ => 0 }

/-- Allocate a fresh shared cell holding `w` with use count 1; returns its
index. -/
def Heap.alloc (h : Heap) (w : FDWrapper) : Nat × Heap :=
  (h.next,
   { next := h.next + 1,
     cell := fun j => if j = h.next then w else h.cell j,
     refs := fun j => if j = h.next then 1 else h.refs j })

/-- Overwrite the wrapper state stored in cell `i` (a mutation performed
through the shared pointer). -/
def Heap.set (h : Heap) (i : Nat) (w : FDWrapper) : Heap :=
  { h with cell := fun j => if j = i then w else h.cell j }

/-- Increment the use count of cell `i` (a new shared owner). -/
def Heap.incRef (h : Heap) (i : Nat) : Heap :=
  { h with refs := fun j => if j = i then h.refs j + 1 else h.refs j }

/-- FileDescriptor (file_descriptor.hh lines 11-109): the public guard holds
one shared reference, `internal_fd_` (line 45), to an FDWrapper cell. -/
structure FileDescriptor where
  internal_fd_ : Nat
deriving DecidableEq

/-- FileDescriptor(int fd) (file_descriptor.hh line 67): wrap a
kernel-returned descriptor in a fresh shared cell with use count 1. -/
def FileDescriptor.make (fd : Int) (h : Heap) : FileDescriptor × Heap :=
  let a := h.alloc { fd_ := fd }
  (⟨a.1⟩, a.2)

/-- fd_num (file_descriptor.hh line 97): pure read of the shared cell. -/
def FileDescriptor.fd_num (g : FileDescriptor) (h : Heap) : Int :=
  (h.cell g.internal_fd_).fd_

/-- eof (file_descriptor.hh line 98): pure read of the shared cell. -/
def FileDescriptor.eof (g : FileDescriptor) (h : Heap) : Bool :=
  (h.cell g.internal_fd_).eof_

/-- closed (file_descriptor.hh line 99): pure read of the shared cell. -/
def FileDescriptor.closed (g : FileDescriptor) (h : Heap) : Bool :=
  (h.cell g.internal_fd_).closed_

/-- read_count (file_descriptor.hh line 100): pure read of the shared cell. -/
def FileDescriptor.read_count (g : FileDescriptor) (h : Heap) : Nat :=
  (h.cell g.internal_fd_).read_count_

/-- write_count (file_descriptor.hh line 101): pure read of the shared cell. -/
def FileDescriptor.write_count (g : FileDescriptor) (h : Heap) : Nat :=
  (h.cell g.internal_fd_).write_count_

/-- FileDescriptor::close (file_descriptor.hh line 85): delegates to the
shared FDWrapper's close, writing the updated wrapper back through the
shared pointer. -/
def FileDescriptor.close (g : FileDescriptor) (h : Heap) (ret : Int) (errno : ErrCode) :
    Except SystemCallError Unit × Heap × List Syscall :=
  let r := FDWrapper.close (h.cell g.internal_fd_) ret errno
  (r.1, h.set g.internal_fd_ r.2.1, r.2.2)

/-- Modelled from the spec: the body of FileDescriptor::duplicate lives in
file_descriptor.cc, which is absent from the sources (header line 88 only
declares it; line 48 declares the private constructor from the shared
pointer that it uses). Spec section 4.2: return a new guard sharing the same
Handle, incrementing the shared reference count; no kernel-level duplicate
syscall is issued. -/
def FileDescriptor.duplicate (g : FileDescriptor) (h : Heap) :
    FileDescriptor × Heap × List Syscall :=
  (⟨g.internal_fd_⟩, h.incRef g.internal_fd_, [])

/-- The errno used when an operation detects `closed` and fails without a
syscall (spec section 3: after explicit close, operations must detect
`closed` and fail without re-issuing the syscall); EBADF is the conventional
bad-descriptor code. -/
def EBADF : ErrCode := 9

/-- kReadBufferSize (file_descriptor.hh line 52). -/
def kReadBufferSize : Nat := 16384

/-- Modelled from the spec: the body of FileDescriptor::read lives in
file_descriptor.cc, which is absent from the sources (header line 73 declares
it; header lines 55 and 57 give the inline set_eof and register_read it
uses). Spec sections 3 and 4.2: on a closed handle the operation detects
`closed` and fails without issuing a syscall; otherwise it issues one bounded
read capped at kReadBufferSize, increments the read counter on every
attempted read regardless of outcome, fails with SystemCallError on a
negative return (checked through CheckSystemCall), and sets eof on a
zero-length successful read. The result is the number of bytes read. `ret`
and `errno` are the kernel read syscall's return value and error code. -/
def FileDescriptor.read (g : FileDescriptor) (h : Heap) (ret : Int) (errno : ErrCode) :
    Except SystemCallError Nat × Heap × List Syscall :=
  let i := g.internal_fd_
  let w := h.cell i
  if w.closed_ then
    (Except.error ⟨"read", EBADF⟩, h.set i w.register_read, [])
  else
    let w1 := w.register_read
    match CheckSystemCall "read" ret errno with
    | Except.error e => (Except.error e, h.set i w1, [Syscall.sys_read w.fd_ kReadBufferSize])
    | Except.ok v =>
      if v = 0 then
        (Except.ok 0, h.set i w1.set_eof, [Syscall.sys_read w.fd_ kReadBufferSize])
      else
        (Except.ok v.toNat, h.set i w1, [Syscall.sys_read w.fd_ kReadBufferSize])

/-- Modelled from the spec: the body of FileDescriptor::write lives in
file_descriptor.cc, which is absent from the sources (header line 78 declares
it; header line 59 gives the inline register_write it uses). Spec sections 3,
4.2 and 8: on a closed handle the operation detects `closed` and fails with
SystemCallError without issuing any syscall against the retained raw number;
otherwise it issues one bounded write of at most the chunk cap, increments
the write counter once per attempted call regardless of outcome, fails with
SystemCallError when the syscall errors (checked through CheckSystemCall),
and returns the bytes actually written. `len` is the caller's buffer length;
`ret` and `errno` are the kernel write syscall's return value and error
code. -/
def FileDescriptor.write (g : FileDescriptor) (h : Heap) (len : Nat) (ret : Int) (errno : ErrCode) :
    Except SystemCallError Nat × Heap × List Syscall :=
  let i := g.internal_fd_
  let w := h.cell i
  if w.closed_ then
    (Except.error ⟨"write", EBADF⟩, h.set i w.register_write, [])
  else
    let w1 := w.register_write
    match CheckSystemCall "write" ret errno with
    | Except.error e =>
        (Except.error e, h.set i w1, [Syscall.sys_write w.fd_ (min len kReadBufferSize)])
    | Except.ok v =>
        (Except.ok v.toNat, h.set i w1, [Syscall.sys_write w.fd_ (min len kReadBufferSize)])

/-- Modelled from the spec: the body of FileDescriptor::set_blocking lives in
file_descriptor.cc, which is absent from the sources (header line 91 only
declares it). Spec sections 3 and 4.2: on a closed handle, fail without a
syscall; otherwise issue the fcntl syscall, fail with SystemCallError on
failure, and update the cached non-blocking state only on success. -/
def FileDescriptor.set_blocking (g : FileDescriptor) (h : Heap) (blocking : Bool)
    (ret : Int) (errno : ErrCode) : Except SystemCallError Unit × Heap × List Syscall :=
  let i := g.internal_fd_
  let w := h.cell i
  if w.closed_ then
    (Except.error ⟨"fcntl", EBADF⟩, h, [])
  else
    match CheckSystemCall "fcntl" ret errno with
    | Except.error e => (Except.error e, h, [Syscall.sys_fcntl w.fd_])
    | Except.ok _ =>
        (Except.ok (), h.set i { w with non_blocking_ := !blocking }, [Syscall.sys_fcntl w.fd_])

/-- One modelled guard operation together with the kernel outcome it is run
against. -/
inductive Op where
  | op_close (ret : Int) (errno : ErrCode)
  | op_read (ret : Int) (errno : ErrCode)
  | op_write (len : Nat) (ret : Int) (errno : ErrCode)
  | op_set_blocking (blocking : Bool) (ret : Int) (errno : ErrCode)
  | op_duplicate

/-- The heap after a guard performs one modelled operation. -/
def FileDescriptor.step (g : FileDescriptor) (h : Heap) : Op → Heap
  | Op.op_close ret e => (g.close h ret e).2.1
  | Op.op_read ret e => (g.read h ret e).2.1
  | Op.op_write len ret e => (g.write h len ret e).2.1
  | Op.op_set_blocking b ret e => (g.set_blocking h b ret e).2.1
  | Op.op_duplicate => (g.duplicate h).2.1

/-
The debug sink (src/minnow/util/debug.cc and debug.hh). C++ `void*` context
pointers are modelled as natural numbers with 0 for nullptr; the handler
function pointer is either the default handler or an opaque custom handler
identified by a number, whose behaviour is supplied by an environment `env`.
A handler invocation produces a list of observable output events.
-/

/-- A C++ void pointer, modelled as a number; 0 is nullptr. -/
abbrev Ptr := Nat

/-- The null context pointer (debug.cc line 14 initialises debug_arg to
nullptr). -/
def nullptr : Ptr := 0

/-- A debug handler function pointer: the default handler
(default_debug_handler, debug.cc lines 7-10) or a custom handler installed by
the application, identified by a number. -/
inductive HandlerFn where
  | defaultHandler
  | custom (id : Nat)
deriving DecidableEq

/-- Observable effects of a handler invocation: a write to standard error, or
the invocation of a custom handler body with its context pointer and
message. -/
inductive OutputEvent where
  | stderrWrite (text : String)
deriving DecidableEq

/-- default_debug_handler (debug.cc lines 7-10): ignores the context pointer
and writes the message prefixed with the fixed tag to standard error. -/
def default_debug_handler (arg : Ptr) (message : String) : List OutputEvent :=
  let _ := arg
  [OutputEvent.stderrWrite ("DEBUG: " ++ message ++ "\n")]

/-- Run a handler function pointer on a context pointer and a message; the
environment `env` supplies the behaviour of custom handler bodies. -/
def runHandler (env : Nat → Ptr → String → List OutputEvent) :
    HandlerFn → Ptr → String → List OutputEvent
  | HandlerFn.defaultHandler, arg, msg => default_debug_handler arg msg
  | HandlerFn.custom id, arg, msg => env id arg msg

/-- The process-wide mutable state of the debug sink: the two globals of
debug.cc lines 13-14. -/
structure DebugState where
  debug_handler : HandlerFn
  debug_arg : Ptr
deriving DecidableEq

/-- The initial values of the globals (debug.cc lines 13-14):
default_debug_handler and nullptr. -/
def initialDebugState : DebugState :=
  { debug_handler := HandlerFn.defaultHandler, debug_arg := nullptr }

/-- debug_str (debug.cc lines 23-26): call the current handler with the
current context pointer and the message; the state itself is unchanged. -/
def debug_str (env : Nat → Ptr → String → List OutputEvent) (s : DebugState)
    (message : String) : List OutputEvent :=
  runHandler env s.debug_handler s.debug_arg message

/-- The invocation debug_str performs (debug.cc line 25): which handler is
called, with which context pointer and which message. -/
def debug_invocation (s : DebugState) (message : String) : HandlerFn × Ptr × String :=
  (s.debug_handler, s.debug_arg, message)

/-- set_debug_handler (debug.cc lines 28-32): assigns both globals. -/
def set_debug_handler (s : DebugState) (handler : HandlerFn) (arg : Ptr) : DebugState :=
  { s with debug_handler := handler, debug_arg := arg }

/-- reset_debug_handler (debug.cc lines 34-37): assigns only debug_handler
back to the default; debug_arg is left as it was. -/
def reset_debug_handler (s : DebugState) : DebugState :=
  { s with debug_handler := HandlerFn.defaultHandler }

/-- The fold `(ss << ... << args)` of the variadic template debug (debug.hh
line 19): left-to-right stream insertion of the arguments into the
ostringstream, each argument contributing its stream rendering. -/
def stream_insert_fold (ss : String) (args : List String) : String :=
  args.foldl (fun acc a => acc ++ a) ss

/-- debug (debug.hh lines 14-22, with NDEBUG not defined): build the message
by stream-inserting the arguments into a fresh ostringstream and deliver it
through debug_str. The `fmt` parameter is bound but never inserted. -/
def debug (env : Nat → Ptr → String → List OutputEvent) (s : DebugState)
    (fmt : String) (args : List String) : List OutputEvent :=
  let _ := fmt
  debug_str env s (stream_insert_fold "" args)

/-
Concrete inputs used by the witness and counterexample theorems.
-/

/-- A fresh open wrapper on kernel descriptor 4. -/
def wOpen : FDWrapper := { fd_ := 4 }

/-- An already-closed wrapper on kernel descriptor 4. -/
def wClosed : FDWrapper := { fd_ := 4, closed_ := true }

/-- A heap holding one open wrapper in cell 0. -/
def openHeap : Heap := (Heap.empty.alloc wOpen).2

/-- A heap holding one closed wrapper in cell 0. -/
def closedHeap : Heap := (Heap.empty.alloc wClosed).2

/-- The guard referring to cell 0. -/
def g0 : FileDescriptor := ⟨0⟩

/-- An open wrapper whose unsigned counters sit at their maximum value
2^32 - 1. -/
def spunWrapper : FDWrapper :=
  { fd_ := 3, read_count_ := unsignedWidth - 1, write_count_ := unsignedWidth - 1 }

/-- A heap holding the counter-saturated wrapper in cell 0. -/
def spunHeap : Heap := (Heap.empty.alloc spunWrapper).2

/-- The heap after a successful zero-byte read on the open heap: eof is
set. -/
def eofHeap : Heap := (FileDescriptor.read g0 openHeap 0 0).2.1

/-
Helper lemmas.
-/

/-- Reading a cell of an updated heap. -/
theorem Heap.set_cell (h : Heap) (i j : Nat) (w : FDWrapper) :
    (h.set i w).cell j = if j = i then w else h.cell j := rfl

/-- incRef does not change any cell's wrapper state. -/
theorem Heap.incRef_cell (h : Heap) (i j : Nat) :
    (h.incRef i).cell j = h.cell j := rfl

/-- FDWrapper.close leaves the eof flag unchanged. -/
theorem FDWrapper.close_eof (w : FDWrapper) (ret : Int) (errno : ErrCode) :
    ((FDWrapper.close w ret errno).2.1).eof_ = w.eof_ := by
  unfold FDWrapper.close CheckSystemCall
  cases hc : w.closed_ <;> by_cases hr : ret = -1 <;> simp [hc, hr]

/-- After any FDWrapper.close, the wrapper is marked closed: either it already
was, or the call just set the flag (even on syscall failure). -/
theorem FDWrapper.close_sets_closed (w : FDWrapper) (ret : Int) (errno : ErrCode) :
    ((FDWrapper.close w ret errno).2.1).closed_ = true := by
  unfold FDWrapper.close CheckSystemCall
  cases hc : w.closed_ <;> by_cases hr : ret = -1 <;> simp [hc, hr]

/-- FDWrapper.close on an already-closed wrapper is a complete no-op. -/
theorem FDWrapper.close_of_closed (w : FDWrapper) (ret : Int) (errno : ErrCode)
    (hw : w.closed_ = true) :
    FDWrapper.close w ret errno = (Except.ok (), w, []) := by
  simp [FDWrapper.close, hw]

/-- Updating a cell with a wrapper whose eof flag dominates the old one
preserves eof-trueness at every cell. -/
theorem Heap.set_eof_mono (h : Heap) (i j : Nat) (w : FDWrapper)
    (hw : (h.cell i).eof_ = true → w.eof_ = true)
    (hj : (h.cell j).eof_ = true) : ((h.set i w).cell j).eof_ = true := by
  rw [Heap.set_cell]
  by_cases hji : j = i
  · subst hji
    exact if_pos rfl ▸ hw hj
  · simpa [hji] using hj

/-
Claim theorems.
-/

/-- C1: FDWrapper::close is idempotent. On a not-yet-closed handle it issues
exactly one kernel close syscall on the wrapped raw descriptor; on syscall
success it returns normally and marks the handle closed; on syscall failure
it raises SystemCallError{"close", errno} but the handle is still marked
released. After any close call, every further close() is a no-op returning
normally and issuing no syscall, so the same raw number is never reused for
a second close attempt. -/
theorem C1_close_idempotent (w : FDWrapper) (ret : Int) (errno : ErrCode) :
    (w.closed_ = true → FDWrapper.close w ret errno = (Except.ok (), w, []))
    ∧ (w.closed_ = false →
        (FDWrapper.close w ret errno).2.2 = [Syscall.sys_close w.fd_]
        ∧ ((FDWrapper.close w ret errno).2.1).closed_ = true
        ∧ (ret ≠ -1 → (FDWrapper.close w ret errno).1 = Except.ok ())
        ∧ (ret = -1 → (FDWrapper.close w ret errno).1 = Except.error ⟨"close", errno⟩))
    ∧ (∀ ret2 errno2,
        FDWrapper.close ((FDWrapper.close w ret errno).2.1) ret2 errno2
          = (Except.ok (), (FDWrapper.close w ret errno).2.1, [])) := by
  refine ⟨fun hc => ?_, fun hc => ?_, fun ret2 errno2 => ?_⟩
  · simp [FDWrapper.close, hc]
  · by_cases hr : ret = -1 <;> simp [FDWrapper.close, CheckSystemCall, hc, hr]
  · exact FDWrapper.close_of_closed _ ret2 errno2 (FDWrapper.close_sets_closed w ret errno)

/-- Witness for C1 at concrete wrappers: a closed wrapper (no-op) and an open
wrapper under a succeeding and under a failing close syscall. -/
theorem C1_close_idempotent_witness :
    (FDWrapper.close wClosed 0 0 = (Except.ok (), wClosed, []))
    ∧ ((FDWrapper.close wOpen 0 0).2.2 = [Syscall.sys_close wOpen.fd_])
    ∧ ((FDWrapper.close wOpen 0 0).1 = Except.ok ())
    ∧ ((FDWrapper.close wOpen (-1) 7).1 = Except.error ⟨"close", 7⟩) := by
  refine ⟨(C1_close_idempotent wClosed 0 0).1 (by decide), ?_, ?_, ?_⟩
  · exact ((C1_close_idempotent wOpen 0 0).2.1 (by decide)).1
  · exact ((C1_close_idempotent wOpen 0 0).2.1 (by decide)).2.2.1 (by decide)
  · exact ((C1_close_idempotent wOpen (-1) 7).2.1 (by decide)).2.2.2 rfl

/-- C2: for every pair of sibling guards referring to the same shared Handle
cell — in particular a guard and its duplicate, since duplicate returns a
guard with the same internal_fd_ — closing one makes closed() observed
through the other true, and a subsequent close() issued through the other
returns normally and issues no further kernel syscall. -/
theorem C2_sibling_close (a b : FileDescriptor) (h : Heap)
    (ret errno ret2 errno2 : Int) (hab : b.internal_fd_ = a.internal_fd_) :
    ((a.duplicate h).1.internal_fd_ = a.internal_fd_)
    ∧ (FileDescriptor.closed b ((FileDescriptor.close a h ret errno).2.1) = true)
    ∧ ((FileDescriptor.close b ((FileDescriptor.close a h ret errno).2.1) ret2 errno2).1
        = Except.ok ())
    ∧ ((FileDescriptor.close b ((FileDescriptor.close a h ret errno).2.1) ret2 errno2).2.2
        = []) := by
  have hcell : ((FileDescriptor.close a h ret errno).2.1).cell b.internal_fd_
      = (FDWrapper.close (h.cell a.internal_fd_) ret errno).2.1 := by
    simp [FileDescriptor.close, Heap.set_cell, hab]
  have hclosed : FileDescriptor.closed b ((FileDescriptor.close a h ret errno).2.1) = true := by
    rw [FileDescriptor.closed, hcell]
    exact FDWrapper.close_sets_closed _ ret errno
  have hnoop : FDWrapper.close
      (((FileDescriptor.close a h ret errno).2.1).cell b.internal_fd_) ret2 errno2
      = (Except.ok (),
         ((FileDescriptor.close a h ret errno).2.1).cell b.internal_fd_, []) :=
    FDWrapper.close_of_closed _ ret2 errno2 hclosed
  refine ⟨rfl, hclosed, ?_, ?_⟩
  · show (FDWrapper.close
        (((FileDescriptor.close a h ret errno).2.1).cell b.internal_fd_) ret2 errno2).1
      = Except.ok ()
    rw [hnoop]
  · show (FDWrapper.close
        (((FileDescriptor.close a h ret errno).2.1).cell b.internal_fd_) ret2 errno2).2.2
      = []
    rw [hnoop]

/-- Witness for C2: in a one-cell heap, the duplicate of g0 observes closed
after g0's close, and its own close performs no syscall. -/
theorem C2_sibling_close_witness :
    (FileDescriptor.closed (FileDescriptor.duplicate g0 openHeap).1
      ((FileDescriptor.close g0 openHeap 0 0).2.1) = true)
    ∧ ((FileDescriptor.close (FileDescriptor.duplicate g0 openHeap).1
        ((FileDescriptor.close g0 openHeap 0 0).2.1) 0 0).2.2 = []) := by
  have h := C2_sibling_close g0 (FileDescriptor.duplicate g0 openHeap).1 openHeap 0 0 0 0 rfl
  exact ⟨h.2.1, h.2.2.2⟩

/-- C3: CheckSystemCall raises SystemCallError carrying the operation name
and the platform's last error code exactly when the return value is the
failure sentinel -1, and otherwise returns the value unchanged. -/
theorem C3_check_system_call (s : String) (v : Int) (e : ErrCode) :
    (v = -1 → CheckSystemCall s v e = Except.error ⟨s, e⟩)
    ∧ (v ≠ -1 → CheckSystemCall s v e = Except.ok v) := by
  constructor <;> intro hv <;> simp [CheckSystemCall, hv]

/-- Witness for C3 at the failure sentinel and at a successful return. -/
theorem C3_check_system_call_witness :
    (CheckSystemCall "read" (-1) 4 = Except.error ⟨"read", 4⟩)
    ∧ (CheckSystemCall "read" 7 4 = Except.ok 7) := by
  exact ⟨(C3_check_system_call "read" (-1) 4).1 rfl,
         (C3_check_system_call "read" 7 4).2 (by decide)⟩

/-- C4: duplicate returns a new guard sharing the same Handle cell,
increments the shared reference count, and issues no kernel syscall (in
particular no kernel-level duplicate); afterwards both guards observe the
identical Handle state — raw fd number, eof, closed, blocking mode and both
counters — and the duplicate's fd_num equals the original's fd_num, both in
the new heap and relative to the original heap. -/
theorem C4_duplicate_shares (g : FileDescriptor) (h : Heap) :
    ((g.duplicate h).2.2 = [])
    ∧ ((g.duplicate h).1.internal_fd_ = g.internal_fd_)
    ∧ ((g.duplicate h).2.1.refs g.internal_fd_ = h.refs g.internal_fd_ + 1)
    ∧ (FileDescriptor.fd_num (g.duplicate h).1 (g.duplicate h).2.1
        = FileDescriptor.fd_num g (g.duplicate h).2.1)
    ∧ (FileDescriptor.eof (g.duplicate h).1 (g.duplicate h).2.1
        = FileDescriptor.eof g (g.duplicate h).2.1)
    ∧ (FileDescriptor.closed (g.duplicate h).1 (g.duplicate h).2.1
        = FileDescriptor.closed g (g.duplicate h).2.1)
    ∧ (((g.duplicate h).2.1.cell (g.duplicate h).1.internal_fd_).non_blocking_
        = ((g.duplicate h).2.1.cell g.internal_fd_).non_blocking_)
    ∧ (FileDescriptor.read_count (g.duplicate h).1 (g.duplicate h).2.1
        = FileDescriptor.read_count g (g.duplicate h).2.1)
    ∧ (FileDescriptor.write_count (g.duplicate h).1 (g.duplicate h).2.1
        = FileDescriptor.write_count g (g.duplicate h).2.1)
    ∧ (FileDescriptor.fd_num (g.duplicate h).1 (g.duplicate h).2.1
        = FileDescriptor.fd_num g h) := by
  refine ⟨rfl, rfl, ?_, rfl, rfl, rfl, rfl, rfl, rfl, rfl⟩
  simp [FileDescriptor.duplicate, Heap.incRef]

/-- C5 counterexample: with the read counter at 2^32 - 1 (the maximum value
of the C++ `unsigned` counter, file_descriptor.hh line 22), an attempted read
wraps the counter to 0 instead of increasing it by one, refuting the claim
that every attempted read increases read_count() by exactly one. -/
theorem C5_counter_wrap_counterexample :
    (FileDescriptor.read_count g0 spunHeap = 2 ^ 32 - 1)
    ∧ (FileDescriptor.read_count g0 ((FileDescriptor.read g0 spunHeap 5 0).2.1) = 0)
    ∧ (FileDescriptor.read_count g0 ((FileDescriptor.read g0 spunHeap 5 0).2.1)
        ≠ FileDescriptor.read_count g0 spunHeap + 1) := by
  refine ⟨rfl, rfl, by decide⟩

/-- C5 (amended): every attempted read or write call increments the
respective counter by exactly one modulo 2^32 — the width of the C++
`unsigned` counter, so the increment is exactly one except at the wrap point
2^32 - 1 — regardless of success, partial completion or failure, and leaves
the other counter unchanged. -/
theorem C5_counters_increment (g : FileDescriptor) (h : Heap) (len : Nat)
    (ret : Int) (errno : ErrCode) :
    (FileDescriptor.read_count g ((FileDescriptor.read g h ret errno).2.1)
        = (FileDescriptor.read_count g h + 1) % 2 ^ 32)
    ∧ (FileDescriptor.write_count g ((FileDescriptor.read g h ret errno).2.1)
        = FileDescriptor.write_count g h)
    ∧ (FileDescriptor.write_count g ((FileDescriptor.write g h len ret errno).2.1)
        = (FileDescriptor.write_count g h + 1) % 2 ^ 32)
    ∧ (FileDescriptor.read_count g ((FileDescriptor.write g h len ret errno).2.1)
        = FileDescriptor.read_count g h) := by
  refine ⟨?_, ?_, ?_, ?_⟩
  · simp only [FileDescriptor.read, FileDescriptor.read_count]
    split
    · simp [Heap.set_cell, FDWrapper.register_read, unsignedWidth]
    · split
      · simp [Heap.set_cell, FDWrapper.register_read, unsignedWidth]
      · split <;>
          simp [Heap.set_cell, FDWrapper.register_read, FDWrapper.set_eof, unsignedWidth]
  · simp only [FileDescriptor.read, FileDescriptor.write_count]
    split
    · simp [Heap.set_cell, FDWrapper.register_read, unsignedWidth]
    · split
      · simp [Heap.set_cell, FDWrapper.register_read, unsignedWidth]
      · split <;>
          simp [Heap.set_cell, FDWrapper.register_read, FDWrapper.set_eof, unsignedWidth]
  · simp only [FileDescriptor.write, FileDescriptor.write_count]
    split
    · simp [Heap.set_cell, FDWrapper.register_write, unsignedWidth]
    · split <;> simp [Heap.set_cell, FDWrapper.register_write, unsignedWidth]
  · simp only [FileDescriptor.write, FileDescriptor.read_count]
    split
    · simp [Heap.set_cell, FDWrapper.register_write, unsignedWidth]
    · split <;> simp [Heap.set_cell, FDWrapper.register_write, unsignedWidth]

/-- C6: (a) a zero-byte kernel read on a not-closed handle succeeds, reports
zero bytes and sets eof() true; (b) once eof is set and the handle is not
closed, a further read whose kernel result is again zero bytes — the
socket/pipe behaviour after end of stream — again succeeds with zero bytes,
raises no error, and keeps eof true; (c) eof never reverts: no modelled
operation by any guard takes the eof flag of any cell from true back to
false. -/
theorem C6_eof_latch (g : FileDescriptor) (h : Heap) (errno : ErrCode) :
    (FileDescriptor.closed g h = false →
        (FileDescriptor.read g h 0 errno).1 = Except.ok 0
        ∧ FileDescriptor.eof g ((FileDescriptor.read g h 0 errno).2.1) = true)
    ∧ (∀ (op : Op) (g2 : FileDescriptor) (j : Nat),
        (h.cell j).eof_ = true → ((FileDescriptor.step g2 h op).cell j).eof_ = true) := by
  constructor
  · intro hc
    rw [FileDescriptor.closed] at hc
    constructor
    · simp [FileDescriptor.read, hc, CheckSystemCall]
    · simp [FileDescriptor.read, FileDescriptor.eof, hc, CheckSystemCall,
        Heap.set_cell, FDWrapper.set_eof]
  · intro op g2 j hj
    cases op with
    | op_close ret e =>
        refine Heap.set_eof_mono h g2.internal_fd_ j _ (fun he => ?_) hj
        rw [FDWrapper.close_eof]
        exact he
    | op_read ret e =>
        simp only [FileDescriptor.step, FileDescriptor.read]
        split
        · exact Heap.set_eof_mono h g2.internal_fd_ j _
            (fun he => by simpa [FDWrapper.register_read] using he) hj
        · split
          · exact Heap.set_eof_mono h g2.internal_fd_ j _
              (fun he => by simpa [FDWrapper.register_read] using he) hj
          · split
            · exact Heap.set_eof_mono h g2.internal_fd_ j _
                (fun he => by simp [FDWrapper.set_eof, FDWrapper.register_read]) hj
            · exact Heap.set_eof_mono h g2.internal_fd_ j _
                (fun he => by simpa [FDWrapper.register_read] using he) hj
    | op_write len ret e =>
        simp only [FileDescriptor.step, FileDescriptor.write]
        split
        · exact Heap.set_eof_mono h g2.internal_fd_ j _
            (fun he => by simpa [FDWrapper.register_write] using he) hj
        · split <;>
            exact Heap.set_eof_mono h g2.internal_fd_ j _
              (fun he => by simpa [FDWrapper.register_write] using he) hj
    | op_set_blocking b ret e =>
        simp only [FileDescriptor.step, FileDescriptor.set_blocking]
        split
        · exact hj
        · split
          · exact hj
          · exact Heap.set_eof_mono h g2.internal_fd_ j _ (fun he => he) hj
    | op_duplicate => exact hj

/-- Witness for C6: the fresh open guard reads zero bytes successfully and
latches eof; a second zero-byte read on the eof state again succeeds with
zero bytes; and a write step on the eof state leaves eof true. -/
theorem C6_eof_latch_witness :
    ((FileDescriptor.read g0 openHeap 0 0).1 = Except.ok 0)
    ∧ (FileDescriptor.eof g0 eofHeap = true)
    ∧ ((FileDescriptor.read g0 eofHeap 0 0).1 = Except.ok 0)
    ∧ (FileDescriptor.eof g0 ((FileDescriptor.read g0 eofHeap 0 0).2.1) = true)
    ∧ (((FileDescriptor.step g0 eofHeap (Op.op_write 3 3 0)).cell 0).eof_ = true) := by
  refine ⟨((C6_eof_latch g0 openHeap 0).1 (by decide)).1,
          ((C6_eof_latch g0 openHeap 0).1 (by decide)).2,
          ((C6_eof_latch g0 eofHeap 0).1 (by decide)).1,
          ((C6_eof_latch g0 eofHeap 0).1 (by decide)).2,
          (C6_eof_latch g0 eofHeap 0).2 (Op.op_write 3 3 0) g0 0 (by decide)⟩

/-- C7: a write through a guard whose shared Handle is closed fails with
SystemCallError — the bad-descriptor error tagged "write" — and issues no
kernel syscall at all, in particular never the write syscall on the retained
raw descriptor number. -/
theorem C7_write_on_closed (g : FileDescriptor) (h : Heap) (len : Nat)
    (ret : Int) (errno : ErrCode) (hc : FileDescriptor.closed g h = true) :
    ((FileDescriptor.write g h len ret errno).1 = Except.error ⟨"write", EBADF⟩)
    ∧ ((FileDescriptor.write g h len ret errno).2.2 = []) := by
  rw [FileDescriptor.closed] at hc
  constructor <;> simp [FileDescriptor.write, hc]

/-- Witness for C7 on the concrete closed heap. -/
theorem C7_write_on_closed_witness :
    ((FileDescriptor.write g0 closedHeap 3 3 0).1 = Except.error ⟨"write", EBADF⟩)
    ∧ ((FileDescriptor.write g0 closedHeap 3 3 0).2.2 = []) :=
  C7_write_on_closed g0 closedHeap 3 3 0 (by decide)

/-- C8: in the initial default state, debug_str writes the message to the
standard error stream prefixed with the fixed tag; after set_debug_handler(h,
a) — applied to any prior state — debug_str invokes the installed handler on
the registered context pointer and the message instead; and when two
registrations happen, the most recent one wins. -/
theorem C8_debug_sink (env : Nat → Ptr → String → List OutputEvent) (m : String)
    (s : DebugState) (hf : HandlerFn) (a : Ptr) (hf2 : HandlerFn) (a2 : Ptr) :
    (debug_str env initialDebugState m
        = [OutputEvent.stderrWrite ("DEBUG: " ++ m ++ "\n")])
    ∧ (debug_str env (set_debug_handler s hf a) m = runHandler env hf a m)
    ∧ (debug_invocation (set_debug_handler s hf a) m = (hf, a, m))
    ∧ (debug_str env (set_debug_handler (set_debug_handler s hf a) hf2 a2) m
        = runHandler env hf2 a2 m)
    ∧ (debug_invocation (set_debug_handler (set_debug_handler s hf a) hf2 a2) m
        = (hf2, a2, m)) :=
  ⟨rfl, rfl, rfl, rfl, rfl⟩

/-- C9: reset_debug_handler restores only the handler to the default and
leaves the stored context pointer unchanged: after set_debug_handler(h, a)
with a non-null a, a reset followed by debug_str(m) invokes
default_debug_handler with the stale pointer a — which is still non-null,
not the initial nullptr — and the message m. -/
theorem C9_reset_keeps_stale_arg (env : Nat → Ptr → String → List OutputEvent)
    (s : DebugState) (hf : HandlerFn) (a : Ptr) (m : String) (ha : a ≠ nullptr) :
    ((reset_debug_handler (set_debug_handler s hf a)).debug_handler
        = HandlerFn.defaultHandler)
    ∧ ((reset_debug_handler (set_debug_handler s hf a)).debug_arg = a)
    ∧ ((reset_debug_handler (set_debug_handler s hf a)).debug_arg ≠ nullptr)
    ∧ (debug_invocation (reset_debug_handler (set_debug_handler s hf a)) m
        = (HandlerFn.defaultHandler, a, m))
    ∧ (debug_str env (reset_debug_handler (set_debug_handler s hf a)) m
        = default_debug_handler a m) :=
  ⟨rfl, rfl, ha, rfl, rfl⟩

/-- Witness for C9 with the custom handler 1 and the non-null context
pointer 5. -/
theorem C9_reset_keeps_stale_arg_witness :
    ((reset_debug_handler
        (set_debug_handler initialDebugState (HandlerFn.custom 1) 5)).debug_arg = 5)
    ∧ (debug_invocation
        (reset_debug_handler
          (set_debug_handler initialDebugState (HandlerFn.custom 1) 5)) "m"
        = (HandlerFn.defaultHandler, 5, "m")) := by
  have h := C9_reset_keeps_stale_arg (fun _ _ _ => []) initialDebugState
    (HandlerFn.custom 1) 5 "m" (by decide)
  exact ⟨h.2.1, h.2.2.2.1⟩

/-- C10: the message debug(fmt, args...) delivers to the debug handler is
exactly the left-to-right stream-concatenation of the arguments; the fmt
parameter never contributes to the message — the delivered events are
identical for any two fmt values — and debug(fmt) with no further arguments
delivers the empty string. -/
theorem C10_debug_ignores_fmt (env : Nat → Ptr → String → List OutputEvent)
    (s : DebugState) (fmt fmt2 : String) (args : List String) :
    (stream_insert_fold "" args = String.join args)
    ∧ (debug env s fmt args = debug_str env s (String.join args))
    ∧ (debug env s fmt args = debug env s fmt2 args)
    ∧ (debug env s fmt [] = debug_str env s "") := by
  have hjoin : stream_insert_fold "" args = String.join args := by
    simp [stream_insert_fold, String.join]
  exact ⟨hjoin, by rw [debug, hjoin], rfl, rfl⟩

end Minnow
